import Mathlib

/-!
Verification development for the wagtail-mcp server core.

The definitions below are a shallow embedding, translated from the
TypeScript sources:

* `src/utils/config.ts` — `getWagtailApiUrl`, `getWagtailApiKey`;
* `src/tools/get-page-details.tool.ts` — parameter schema, identifier
  resolution, field selection, and the catch-block error mapping;
* `src/tools/search-pages.tool.ts` — parameter schema, query building,
  response projection and envelope construction;
* `src/tools/search-documents.tool.ts` — response filtering and envelope
  construction;
* `src/tools/get-document-details.tool.ts` — the catch-block error mapping.

JavaScript `undefined`/`null` optionality is modelled with `Option`
(`zNullToUndefined` collapses `null` into `undefined` before validation,
so a single `Option` layer is faithful for validated inputs), strings with
`String`, and JS numbers restricted to the integers the zod schemas accept
with `Int`.  Thrown errors become `Except` values whose error constructors
record the throw site's class (`UserError` versus plain `Error` versus a
zod schema rejection).
-/

namespace Wagtail

/-- JavaScript-style whitespace test used by `String.prototype.trim`
(restricted to the ASCII whitespace characters). -/
def isJsWhitespace (c : Char) : Bool :=
  c = ' ' || c = '\t' || c = '\n' || c = '\r' || c = '\x0b' || c = '\x0c'

/-- Model of `s.trim()` from JavaScript: drop leading and trailing
whitespace. -/
def jsTrim (s : String) : String :=
  String.mk (((s.data.dropWhile isJsWhitespace).reverse.dropWhile isJsWhitespace).reverse)

/-- Model of the source's `replace(/\/$/, "")`: remove one trailing
slash when present. -/
def stripTrailingSlash (s : String) : String :=
  if s.data.getLast? = some '/' then String.mk s.data.dropLast else s

/-- Model of the leading-slash half of `replace(/^\/|\/$/g, "")`. -/
def stripLeadingSlash (s : String) : String :=
  match s.data with
  | '/' :: rest => String.mk rest
  | _ => s

/-- Model of the source's `replace(/^\/|\/$/g, "")`: the global regex
removes one leading slash and one trailing slash (scanning left to
right, so a lone "/" is consumed by the leading alternative only). -/
def stripEdgeSlashes (s : String) : String :=
  stripTrailingSlash (stripLeadingSlash s)

/-- Uppercase hexadecimal digit, used by percent-encoding. -/
def hexDigit (n : Nat) : Char :=
  if n < 10 then Char.ofNat ('0'.toNat + n) else Char.ofNat ('A'.toNat + (n - 10))

/-- UTF-8 byte sequence of a character, needed to model
`URLSearchParams` percent-encoding of non-ASCII input. -/
def utf8Bytes (c : Char) : List Nat :=
  let n := c.toNat
  if n < 0x80 then [n]
  else if n < 0x800 then [0xC0 + n / 64, 0x80 + n % 64]
  else if n < 0x10000 then [0xE0 + n / 4096, 0x80 + n / 64 % 64, 0x80 + n % 64]
  else [0xF0 + n / 262144, 0x80 + n / 4096 % 64, 0x80 + n / 64 % 64, 0x80 + n % 64]

/-- Characters that `URLSearchParams` serialization leaves unencoded
(the `application/x-www-form-urlencoded` safe set). -/
def isFormSafe (c : Char) : Bool :=
  (('A' ≤ c && c ≤ 'Z') || ('a' ≤ c && c ≤ 'z') || ('0' ≤ c && c ≤ '9')
    || c = '*' || c = '-' || c = '.' || c = '_')

/-- Encoding of one character under `application/x-www-form-urlencoded`. -/
def encodeFormChar (c : Char) : String :=
  if c = ' ' then "+"
  else if isFormSafe c then String.mk [c]
  else String.join ((utf8Bytes c).map fun b => String.mk ['%', hexDigit (b / 16), hexDigit (b % 16)])

/-- Encoding of one string component under
`application/x-www-form-urlencoded`. -/
def encodeFormComponent (s : String) : String :=
  String.join (s.data.map encodeFormChar)

/-- Model of `new URLSearchParams(stringParams).toString()` on an
insertion-ordered key/value list. -/
def encodeQueryString (ps : List (String × String)) : String :=
  String.intercalate "&" (ps.map fun p => encodeFormComponent p.1 ++ "=" ++ encodeFormComponent p.2)

/-- Environment configuration consumed by the tools: `WAGTAIL_BASE_URL`,
`WAGTAIL_API_PATH`, `WAGTAIL_API_KEY`.  `none` models an unset variable. -/
structure WagtailEnv where
  baseUrl : Option String
  apiPath : Option String
  apiKey : Option String
deriving DecidableEq, Repr

/-- Default API path from `config.ts`. -/
def defaultApiPath : String := "/api/v2"

/-- Model of `process.env.WAGTAIL_API_PATH || "/api/v2"`; the JS `||`
also replaces an empty string by the default. -/
def effectiveApiPath (env : WagtailEnv) : String :=
  match env.apiPath with
  | some p => if p = "" then defaultApiPath else p
  | none => defaultApiPath

/-- Model of the source's `specificPath && !specificPath.startsWith("/")
? `/${specificPath}` : specificPath`: prefix a slash onto a non-empty
fragment that lacks one. -/
def normalizeSpecificPath (specificPath : String) : String :=
  match specificPath.data with
  | [] => specificPath
  | c :: _ => if c = '/' then specificPath else "/" ++ specificPath

/-- Model of `getWagtailApiUrl` from `src/utils/config.ts`.  Joins the
normalized base URL, API path, and specific path, then appends an
encoded query string only when parameters are present; an unset (or
empty, which is falsy in JS) base URL is a configuration error. -/
def getWagtailApiUrl (env : WagtailEnv) (specificPath : String)
    (queryParams : List (String × String)) : Except String String :=
  match env.baseUrl with
  | none => .error "Server configuration error: WAGTAIL_BASE_URL is not set."
  | some baseUrl =>
    if baseUrl = "" then .error "Server configuration error: WAGTAIL_BASE_URL is not set."
    else
      let fullUrl := stripTrailingSlash baseUrl ++ ("/" ++ stripEdgeSlashes (effectiveApiPath env))
        ++ normalizeSpecificPath specificPath
      if queryParams.isEmpty then .ok fullUrl
      else .ok (fullUrl ++ "?" ++ encodeQueryString queryParams)

/-- Model of `getWagtailApiKey` from `src/utils/config.ts`. -/
def getWagtailApiKey (env : WagtailEnv) : Option String :=
  env.apiKey

theorem data_append (s t : String) : (s ++ t).data = s.data ++ t.data :=
  String.data_append s t

theorem stripTrailingSlash_concat (b : String) :
    stripTrailingSlash (b ++ "/") = b := by
  unfold stripTrailingSlash
  rw [data_append]
  simp only [show "/".data = ['/'] from rfl, List.getLast?_concat, if_pos rfl,
    List.dropLast_concat, if_true]

theorem stripTrailingSlash_of_no_slash (b : String) (h : b.data.getLast? ≠ some '/') :
    stripTrailingSlash b = b := by
  unfold stripTrailingSlash
  rw [if_neg h]

theorem normalizeSpecificPath_slash (f : String) :
    normalizeSpecificPath ("/" ++ f) = "/" ++ f := by
  unfold normalizeSpecificPath
  have h : ("/" ++ f).data = '/' :: f.data := by rw [data_append]; rfl
  rw [h]
  simp

theorem normalizeSpecificPath_no_slash (f : String) (h1 : f.data ≠ [])
    (h2 : f.data.head? ≠ some '/') : normalizeSpecificPath f = "/" ++ f := by
  unfold normalizeSpecificPath
  cases hfd : f.data with
  | nil => exact absurd hfd h1
  | cons c rest =>
    have hc : c ≠ '/' := by
      intro hcc
      exact h2 (by rw [hfd, hcc]; rfl)
    simp only [if_neg hc]

theorem append_slash_ne_empty (b : String) : b ++ "/" ≠ "" := by
  intro h
  have hd := congrArg String.data h
  rw [data_append] at hd
  simp at hd

/-- C8: the resolved URL is invariant under a trailing slash on the
configured base URL and under a leading slash on the supplied path
fragment, and (with empty query parameters) the result joins base URL,
API path, and fragment with exactly one slash at each boundary. -/
theorem getWagtailApiUrl_slash_invariance (b : String) (apv kv : Option String)
    (f : String) (q : List (String × String))
    (hb : b ≠ "") (hbs : b.data.getLast? ≠ some '/')
    (hf : f.data ≠ []) (hfs : f.data.head? ≠ some '/') :
    getWagtailApiUrl ⟨some (b ++ "/"), apv, kv⟩ f q = getWagtailApiUrl ⟨some b, apv, kv⟩ f q ∧
    getWagtailApiUrl ⟨some b, apv, kv⟩ ("/" ++ f) q = getWagtailApiUrl ⟨some b, apv, kv⟩ f q ∧
    getWagtailApiUrl ⟨some b, apv, kv⟩ f [] =
      .ok (b ++ ("/" ++ stripEdgeSlashes (effectiveApiPath ⟨some b, apv, kv⟩)) ++ ("/" ++ f)) := by
  have hap : effectiveApiPath ⟨some (b ++ "/"), apv, kv⟩ = effectiveApiPath ⟨some b, apv, kv⟩ := rfl
  simp only [getWagtailApiUrl, hap, if_neg hb, if_neg (append_slash_ne_empty b),
    stripTrailingSlash_concat, stripTrailingSlash_of_no_slash b hbs,
    normalizeSpecificPath_slash, normalizeSpecificPath_no_slash f hf hfs]
  refine ⟨trivial, trivial, ?_⟩
  simp [String.append_assoc]

/-- Witness for C8 at the concrete inputs named by the specification:
base URLs `"http://h"` and `"http://h/"` with fragments `"pages/"` and
`"/pages/"` all resolve to `"http://h/api/v2/pages/"`. -/
theorem getWagtailApiUrl_slash_invariance_witness :
    ("http://h" ≠ "" ∧ "http://h".data.getLast? ≠ some '/' ∧
      "pages/".data ≠ [] ∧ "pages/".data.head? ≠ some '/') ∧
    (getWagtailApiUrl ⟨some ("http://h" ++ "/"), none, none⟩ "pages/" [] =
        getWagtailApiUrl ⟨some "http://h", none, none⟩ "pages/" [] ∧
      getWagtailApiUrl ⟨some "http://h", none, none⟩ ("/" ++ "pages/") [] =
        getWagtailApiUrl ⟨some "http://h", none, none⟩ "pages/" [] ∧
      getWagtailApiUrl ⟨some "http://h", none, none⟩ "pages/" [] =
        .ok ("http://h" ++ ("/" ++ stripEdgeSlashes (effectiveApiPath ⟨some "http://h", none, none⟩))
          ++ ("/" ++ "pages/"))) ∧
    getWagtailApiUrl ⟨some "http://h", none, none⟩ "pages/" [] = .ok "http://h/api/v2/pages/" :=
  ⟨⟨by decide, by decide, by decide, by decide⟩,
    getWagtailApiUrl_slash_invariance "http://h" none none "pages/" []
      (by decide) (by decide) (by decide) (by decide),
    by rfl⟩

/-! Embedding of `src/tools/get-page-details.tool.ts`. -/

/-- Validated arguments of the `get_page_details` tool after the
`zNullToUndefined` preprocessing collapsed `null` into `undefined`;
the zod schema types `id` as a number (integer, nonnegative) and the
rest as strings. -/
structure GetPageDetailsArgs where
  id : Option Int
  slug : Option String
  url : Option String
  fields : Option String
deriving DecidableEq, Repr

/-- Model of the pathname extraction of the JS builtin `new URL(u)`
for hierarchical URLs of the form `scheme://host/path?query#frag`
(the only shape the tool receives for page URLs): `none` models the
constructor throwing on input that does not have that shape. -/
def jsUrlPathname (s : String) : Option String :=
  let (scheme, rest) := s.data.span (fun c => c != ':')
  if scheme.isEmpty || !scheme.all Char.isAlpha then none
  else
    match rest with
    | ':' :: '/' :: '/' :: hostRest =>
      let (host, pathRest) := hostRest.span (fun c => c != '/' && c != '?' && c != '#')
      if host.isEmpty then none
      else
        let path := pathRest.takeWhile (fun c => c != '?' && c != '#')
        some (String.mk (if path.isEmpty then ['/'] else path))
    | _ => none

/-- Test for the zod issue on `id`: `z.number().int().nonnegative()`
rejects a negative id. -/
def pageDetailsIdInvalid (a : GetPageDetailsArgs) : Bool :=
  match a.id with
  | some i => i < 0
  | none => false

/-- Test for the zod issue on `url`: `z.string().url()` accepts exactly
the strings the URL constructor accepts. -/
def pageDetailsUrlValid (a : GetPageDetailsArgs) : Bool :=
  match a.url with
  | some u => (jsUrlPathname u).isSome
  | none => true

/-- Cross-field refinement of the `get_page_details` schema: at least
one of `id`, `slug`, `url` must be defined. -/
def pageDetailsRefineOk (a : GetPageDetailsArgs) : Bool :=
  a.id.isSome || a.slug.isSome || a.url.isSome

/-- Model of the zod parse of the `get_page_details` parameters: field
checks first, then the object-level refinement (zod only runs `.refine`
when the base object parses). -/
def validateGetPageDetailsParams (a : GetPageDetailsArgs) :
    Except String GetPageDetailsArgs :=
  if pageDetailsIdInvalid a then .error "Number must be greater than or equal to 0"
  else if !pageDetailsUrlValid a then .error "Invalid url"
  else if !pageDetailsRefineOk a then
    .error "At least one of 'id', 'slug', or 'url' must be provided."
  else .ok a

/-- Error classes of the tool handlers: a zod schema rejection raised by
the framework before `execute` runs, a `UserError` thrown by `execute`,
or a plain `Error` thrown by `execute`. -/
inductive ExecErr where
  | schemaError (msg : String)
  | userError (msg : String)
  | genericError (msg : String)
deriving DecidableEq, Repr

/-- Outbound request as handed to `axios.get`: the endpoint path below
the base URL, and the query parameter object in insertion order. -/
structure ResolvedRequest where
  path : String
  query : List (String × String)
deriving DecidableEq, Repr

/-- Model of the `fields` merge in `execute` (lines 74–79 of the tool):
the caller-supplied selector is copied verbatim into the query under
key `fields` when defined, and no `fields` key is added otherwise. -/
def addFieldsParam (f : Option String) (q : List (String × String)) :
    List (String × String) :=
  match f with
  | some s => q ++ [("fields", s)]
  | none => q

/-- The message `execute` throws when `id` is zero and no fallback
identifier is supplied. -/
def zeroIdMessage : String :=
  "At least one valid 'id' (non-zero), 'slug', or 'url' must be provided."

/-- Model of the endpoint-resolution phase of `execute` in
`get-page-details.tool.ts` (lines 36–88): collapse `id = 0` to absent
with its own cross-field check, check the base-URL configuration, then
pick the endpoint by the priority `id > slug > url` and merge the
field selector.  The result is the request `axios.get` would receive. -/
def pageDetailsEffectiveId (args : GetPageDetailsArgs) : Option Int :=
  if args.id = some 0 then none else args.id

def resolveGetPageDetails (env : WagtailEnv) (args : GetPageDetailsArgs) :
    Except ExecErr ResolvedRequest :=
  if args.id = some 0 ∧ args.slug = none ∧ args.url = none then
    .error (.userError zeroIdMessage)
  else
    match env.baseUrl with
    | none => .error (.genericError "Server configuration error: WAGTAIL_BASE_URL is not set.")
    | some b =>
      if b = "" then
        .error (.genericError "Server configuration error: WAGTAIL_BASE_URL is not set.")
      else
        match pageDetailsEffectiveId args, args.slug, args.url with
        | some i, _, _ =>
          .ok ⟨"/" ++ stripEdgeSlashes (effectiveApiPath env) ++ "/pages/" ++ toString i ++ "/",
            addFieldsParam args.fields []⟩
        | none, some slug, _ =>
          .ok ⟨"/" ++ stripEdgeSlashes (effectiveApiPath env) ++ "/pages/find/",
            addFieldsParam args.fields [("html_path", slug)]⟩
        | none, none, some url =>
          match jsUrlPathname url with
          | some pathname =>
            .ok ⟨"/" ++ stripEdgeSlashes (effectiveApiPath env) ++ "/pages/find/",
              addFieldsParam args.fields [("html_path", stripEdgeSlashes pathname)]⟩
          | none => .error (.userError ("Invalid URL format provided: " ++ url))
        | none, none, none => .error (.genericError "Internal error: No valid parameter found.")

/-- Identifier rendered into the 404 message of the catch block:
`effectiveArgs.id ?? effectiveArgs.slug ?? effectiveArgs.url` (with the
zeroed id already collapsed); an all-absent chain renders as JS
`undefined`. -/
def pageIdentifierString (args : GetPageDetailsArgs) : String :=
  match (if args.id = some 0 then none else args.id) with
  | some i => toString i
  | none =>
    match args.slug with
    | some s => s
    | none =>
      match args.url with
      | some u => u
      | none => "undefined"

/-- Message assembled at the top of the catch block:
`Wagtail API request failed` plus the status when truthy, plus the
transport error's own message. -/
def axiosFailMessage (status : Option Nat) (axiosMessage : String) : String :=
  let base := "Wagtail API request failed"
  let base :=
    match status with
    | some s => if s = 0 then base else base ++ " with status " ++ toString s
    | none => base
  base ++ ": " ++ axiosMessage

/-- Model of the axios-error arm of the catch block of
`get-page-details.tool.ts`: 404 becomes a `UserError` naming the
identifier, any other 4xx a `UserError` naming the status, and
everything else (5xx, no response, status 0) a plain `Error` with the
`Server or network error` message. -/
def classifyGetPageDetailsAxios (identifier : String) (status : Option Nat)
    (axiosMessage : String) : ExecErr :=
  match status with
  | some 404 => .userError ("Page not found for identifier: " ++ identifier)
  | some st =>
    if 400 ≤ st ∧ st < 500 then
      .userError ("Client error calling Wagtail API (Status: " ++ toString st ++ "). Check parameters.")
    else
      .genericError ("Server or network error calling Wagtail API: " ++ axiosFailMessage status axiosMessage)
  | none =>
    .genericError ("Server or network error calling Wagtail API: " ++ axiosFailMessage none axiosMessage)

/-- Outcome of the single `axios.get` of the page-detail tool: a
success body (`none` models a falsy `response.data`), or a transport
failure with an optional HTTP status (`none` models a network error
with no response). -/
inductive PageProviderOutcome where
  | success (body : Option (List (String × String)))
  | failure (status : Option Nat) (message : String)

/-- Trace of one tool invocation: its outcome, how many outbound
network calls were made, and how many times the catch-block error
classifier ran. -/
structure RunTrace (β : Type) where
  result : Except ExecErr β
  networkCalls : Nat
  classifierCalls : Nat

/-- Whole-invocation model of `get_page_details`: framework-side zod
validation, then the pre-request phase of `execute`, then at most one
provider call whose failure is routed through the catch-block
classifier.  A falsy success body throws inside `try` and is therefore
also classified (as the unexpected-error wrap). -/
def getPageDetailsRun (env : WagtailEnv) (raw : GetPageDetailsArgs)
    (provider : ResolvedRequest → PageProviderOutcome) :
    RunTrace (List (String × String)) :=
  match validateGetPageDetailsParams raw with
  | .error m => ⟨.error (.schemaError m), 0, 0⟩
  | .ok args =>
    match resolveGetPageDetails env args with
    | .error e => ⟨.error e, 0, 0⟩
    | .ok req =>
      match provider req with
      | .success (some body) => ⟨.ok body, 1, 0⟩
      | .success none =>
        ⟨.error (.genericError "An unexpected error occurred: API returned empty data."), 1, 1⟩
      | .failure st msg =>
        ⟨.error (classifyGetPageDetailsAxios (pageIdentifierString args) st msg), 1, 1⟩

/-- Substring containment, used to state that an error message names a
field. -/
def mentions (s sub : String) : Prop :=
  sub.data <:+: s.data

instance mentionsDecidable (s sub : String) : Decidable (mentions s sub) :=
  inferInstanceAs (Decidable (sub.data <:+: s.data))

/-- C1: the full identifier priority `id > slug > url` of page-detail
resolution, with lower-priority variants silently ignored.  First half:
a nonzero `id` makes the resolution identical to the one with `slug`
and `url` absent, targeting `pages/{id}/` with no `html_path` entry.
Second half: with `id` absent (or zero, which is treated as absent) and
a `slug` supplied, the resolution is identical to the one with `url`
absent — even a populated `url` is ignored without error — targeting
`pages/find/` with `html_path` set to the slug. -/
theorem getPageDetails_id_priority (env : WagtailEnv) (b : String)
    (hb : env.baseUrl = some b) (hb2 : b ≠ "") :
    (∀ (n : Int) (s u f : Option String), n ≠ 0 →
      resolveGetPageDetails env ⟨some n, s, u, f⟩ =
        resolveGetPageDetails env ⟨some n, none, none, f⟩ ∧
      ∃ req, resolveGetPageDetails env ⟨some n, s, u, f⟩ = .ok req ∧
        req.path = "/" ++ stripEdgeSlashes (effectiveApiPath env) ++ "/pages/"
          ++ toString n ++ "/" ∧
        req.query.lookup "html_path" = none) ∧
    (∀ (idv : Option Int) (s : String) (u f : Option String), idv = none ∨ idv = some 0 →
      resolveGetPageDetails env ⟨idv, some s, u, f⟩ =
        resolveGetPageDetails env ⟨idv, some s, none, f⟩ ∧
      ∃ req, resolveGetPageDetails env ⟨idv, some s, u, f⟩ = .ok req ∧
        req.path = "/" ++ stripEdgeSlashes (effectiveApiPath env) ++ "/pages/find/" ∧
        req.query.lookup "html_path" = some s) := by
  constructor
  · intro n s u f hn
    have hne : (some n : Option Int) ≠ some 0 := by simpa using hn
    simp only [resolveGetPageDetails, pageDetailsEffectiveId, hb, if_neg hne, if_neg hb2, hne,
      false_and, if_false]
    refine ⟨trivial, _, rfl, rfl, ?_⟩
    cases f <;> simp [addFieldsParam]
  · intro idv s u f hid
    have key : ∀ u' : Option String, resolveGetPageDetails env ⟨idv, some s, u', f⟩ =
        .ok ⟨"/" ++ stripEdgeSlashes (effectiveApiPath env) ++ "/pages/find/",
          addFieldsParam f [("html_path", s)]⟩ := by
      intro u'
      rcases hid with rfl | rfl <;>
        simp [resolveGetPageDetails, pageDetailsEffectiveId, hb, hb2]
    refine ⟨(key u).trans (key none).symm, _, key u, rfl, ?_⟩
    cases f <;> simp [addFieldsParam, List.lookup]

/-- Witness for C1 at the spec's concrete input `{id: 5, slug: "x"}`
(resolved path `/api/v2/pages/5/`, no `html_path` entry) and at the
slug-beats-url input `{slug: "x", url: "http://h/y/"}` (resolved path
`/api/v2/pages/find/` with `html_path` `"x"`, the url ignored). -/
theorem getPageDetails_id_priority_witness :
    ((Wagtail.WagtailEnv.mk (some "http://h") none none).baseUrl = some "http://h" ∧
      "http://h" ≠ "" ∧ (5 : Int) ≠ 0 ∧
      ((none : Option Int) = none ∨ (none : Option Int) = some 0)) ∧
    resolveGetPageDetails ⟨some "http://h", none, none⟩ ⟨some 5, some "x", none, none⟩ =
      resolveGetPageDetails ⟨some "http://h", none, none⟩ ⟨some 5, none, none, none⟩ ∧
    resolveGetPageDetails ⟨some "http://h", none, none⟩ ⟨some 5, some "x", none, none⟩ =
      .ok ⟨"/api/v2/pages/5/", []⟩ ∧
    (ResolvedRequest.mk "/api/v2/pages/5/" []).query.lookup "html_path" = none ∧
    resolveGetPageDetails ⟨some "http://h", none, none⟩
        ⟨none, some "x", some "http://h/y/", none⟩ =
      resolveGetPageDetails ⟨some "http://h", none, none⟩ ⟨none, some "x", none, none⟩ ∧
    resolveGetPageDetails ⟨some "http://h", none, none⟩
        ⟨none, some "x", some "http://h/y/", none⟩ =
      .ok ⟨"/api/v2/pages/find/", [("html_path", "x")]⟩ :=
  ⟨⟨rfl, by decide, by decide, Or.inl rfl⟩,
    ((getPageDetails_id_priority ⟨some "http://h", none, none⟩ "http://h" rfl (by decide)).1
      5 (some "x") none none (by decide)).1,
    by rfl, by rfl,
    ((getPageDetails_id_priority ⟨some "http://h", none, none⟩ "http://h" rfl (by decide)).2
      none "x" (some "http://h/y/") none (Or.inl rfl)).1,
    by rfl⟩

/-- C5: a supplied `id` of zero is collapsed to absent: with a slug (or
a url) also supplied, resolution is identical to the id-absent case;
with no fallback identifier, the zod schema still accepts the input but
`execute` fails with the `UserError` whose message names all of `id`,
`slug` and `url` — before any configuration or network step. -/
theorem getPageDetails_id_zero (env : WagtailEnv) (s : String) (u f fs : Option String) :
    resolveGetPageDetails env ⟨some 0, some s, u, f⟩ =
      resolveGetPageDetails env ⟨none, some s, u, f⟩ ∧
    (∀ u', resolveGetPageDetails env ⟨some 0, none, some u', f⟩ =
      resolveGetPageDetails env ⟨none, none, some u', f⟩) ∧
    validateGetPageDetailsParams ⟨some 0, none, none, fs⟩ = .ok ⟨some 0, none, none, fs⟩ ∧
    resolveGetPageDetails env ⟨some 0, none, none, fs⟩ = .error (.userError zeroIdMessage) ∧
    mentions zeroIdMessage "'id'" ∧ mentions zeroIdMessage "'slug'" ∧ mentions zeroIdMessage "'url'" := by
  refine ⟨?_, fun u' => ?_, by rfl, by rfl, by decide, by decide, by decide⟩
  · simp [resolveGetPageDetails, pageDetailsEffectiveId]
  · simp [resolveGetPageDetails, pageDetailsEffectiveId]

theorem lookup_fields_addFieldsParam (f : Option String) (q : List (String × String))
    (hq : q.lookup "fields" = none) : (addFieldsParam f q).lookup "fields" = f := by
  cases f with
  | none => simpa [addFieldsParam] using hq
  | some s =>
    simp only [addFieldsParam]
    induction q with
    | nil => rfl
    | cons p t ih =>
      obtain ⟨k, v⟩ := p
      simp only [List.lookup, List.cons_append] at hq ih ⊢
      cases hk : ("fields" == k) with
      | true => rw [hk] at hq; simp at hq
      | false => rw [hk] at hq; exact ih hq

/-- C4 counterexample: with no field selector supplied, the resolved
page-detail request carries no `fields` query entry at all — the query
does not default to `"*"` as the claim states. -/
theorem getPageDetails_fields_no_default_counterexample :
    resolveGetPageDetails ⟨some "http://h", none, none⟩ ⟨some 5, none, none, none⟩ =
      .ok ⟨"/api/v2/pages/5/", []⟩ ∧
    (([] : List (String × String)).lookup "fields" = none ∧
      ([] : List (String × String)).lookup "fields" ≠ some "*") :=
  ⟨by rfl, by decide, by decide⟩

/-- C4 amended: on every successful page-detail resolution (by id, by
slug, or by url), the `fields` query entry equals the caller-supplied
selector verbatim when one is supplied, and is absent when none is
supplied (no `"*"` default is inserted). -/
theorem getPageDetails_fields_verbatim (env : WagtailEnv) (args : GetPageDetailsArgs)
    (req : ResolvedRequest) (h : resolveGetPageDetails env args = .ok req) :
    req.query.lookup "fields" = args.fields := by
  unfold resolveGetPageDetails at h
  repeat' split at h
  all_goals cases h
  all_goals exact lookup_fields_addFieldsParam _ _ (by rfl)

/-- Witness for C4 at the spec's selector `"*,-title"`: it appears
unmodified under `fields` in the resolved request. -/
theorem getPageDetails_fields_verbatim_witness :
    resolveGetPageDetails ⟨some "http://h", none, none⟩ ⟨some 5, none, none, some "*,-title"⟩ =
      .ok ⟨"/api/v2/pages/5/", [("fields", "*,-title")]⟩ ∧
    (ResolvedRequest.mk "/api/v2/pages/5/" [("fields", "*,-title")]).query.lookup "fields" =
      some "*,-title" :=
  ⟨by rfl,
    getPageDetails_fields_verbatim ⟨some "http://h", none, none⟩
      ⟨some 5, none, none, some "*,-title"⟩ ⟨"/api/v2/pages/5/", [("fields", "*,-title")]⟩
      (by rfl)⟩

/-- C7: when no identifier is present (id absent or zero, slug and url
absent), the page-detail invocation fails before its network phase:
the provider is never called, the catch-block classifier never runs,
the outcome is the schema rejection (all absent) or the in-`execute`
`UserError` (id zero), and the trace is independent of the provider. -/
theorem getPageDetails_validation_before_network (env : WagtailEnv) (idv : Option Int)
    (f : Option String) (provider : ResolvedRequest → PageProviderOutcome)
    (hid : idv = none ∨ idv = some 0) :
    (getPageDetailsRun env ⟨idv, none, none, f⟩ provider).networkCalls = 0 ∧
    (getPageDetailsRun env ⟨idv, none, none, f⟩ provider).classifierCalls = 0 ∧
    (∃ m, (getPageDetailsRun env ⟨idv, none, none, f⟩ provider).result = .error (.schemaError m) ∨
      (getPageDetailsRun env ⟨idv, none, none, f⟩ provider).result = .error (.userError m)) ∧
    ∀ provider2, getPageDetailsRun env ⟨idv, none, none, f⟩ provider2 =
      getPageDetailsRun env ⟨idv, none, none, f⟩ provider := by
  rcases hid with h | h <;> subst h
  · exact ⟨rfl, rfl,
      ⟨"At least one of 'id', 'slug', or 'url' must be provided.", Or.inl rfl⟩, fun _ => rfl⟩
  · exact ⟨rfl, rfl, ⟨zeroIdMessage, Or.inr rfl⟩, fun _ => rfl⟩

/-- Witness for C7 at the all-absent input: zero network calls, zero
classifier runs, a schema-level validation failure, and a trace
independent of the provider's behaviour. -/
theorem getPageDetails_validation_before_network_witness :
    ((none : Option Int) = none ∨ (none : Option Int) = some 0) ∧
    (getPageDetailsRun ⟨none, none, none⟩ ⟨none, none, none, none⟩
      (fun _ => .success none)).networkCalls = 0 ∧
    (getPageDetailsRun ⟨none, none, none⟩ ⟨none, none, none, none⟩
      (fun _ => .success none)).classifierCalls = 0 ∧
    (getPageDetailsRun ⟨none, none, none⟩ ⟨none, none, none, none⟩
        (fun _ => .success none)).result =
      .error (.schemaError "At least one of 'id', 'slug', or 'url' must be provided.") ∧
    getPageDetailsRun ⟨none, none, none⟩ ⟨none, none, none, none⟩
        (fun _ => .failure (some 500) "Request failed") =
      getPageDetailsRun ⟨none, none, none⟩ ⟨none, none, none, none⟩
        (fun _ => .success none) :=
  ⟨Or.inl rfl,
    (getPageDetails_validation_before_network ⟨none, none, none⟩ none none
      (fun _ => .success none) (Or.inl rfl)).1,
    (getPageDetails_validation_before_network ⟨none, none, none⟩ none none
      (fun _ => .success none) (Or.inl rfl)).2.1,
    by rfl,
    (getPageDetails_validation_before_network ⟨none, none, none⟩ none none
      (fun _ => .success none) (Or.inl rfl)).2.2.2 (fun _ => .failure (some 500) "Request failed")⟩

/-! Embedding of `src/tools/search-pages.tool.ts`. -/

/-- The `and`/`or` search-operator enumeration of the zod schemas. -/
inductive SearchOp where
  | opAnd
  | opOr
deriving DecidableEq, Repr

/-- Lower-case serialization of a search operator, as the enum literals
`"and"`/`"or"` of the schema. -/
def SearchOp.serialize : SearchOp → String
  | .opAnd => "and"
  | .opOr => "or"

/-- Raw (pre-validation) arguments of the `search_pages` tool; every
field may be absent. -/
structure SearchPagesRaw where
  query : Option String
  type : Option String
  locale : Option String
  limit : Option Int
  offset : Option Int
  search_operator : Option SearchOp
deriving DecidableEq, Repr

/-- Validated `search_pages` arguments: `query` is required, `locale`
defaults to `"en"`, `limit` defaults to `50`. -/
structure SearchPagesArgs where
  query : String
  type : Option String
  locale : String
  limit : Int
  offset : Option Int
  search_operator : Option SearchOp
deriving DecidableEq, Repr

/-- Test for the zod issue on `offset`:
`z.number().int().nonnegative().optional()`. -/
def searchPagesOffsetInvalid (r : SearchPagesRaw) : Bool :=
  match r.offset with
  | some o => o < 0
  | none => false

/-- Model of the zod parse of the `search_pages` parameters: `query` is
a required string (`z.string()` with no `.optional()`), `limit` must be
positive after its default, `offset` non-negative, and the object-level
refinement rejects a blank `query`. -/
def validateSearchPagesParams (r : SearchPagesRaw) : Except String SearchPagesArgs :=
  match r.query with
  | none => .error "Required"
  | some q =>
    if r.limit.getD 50 ≤ 0 then .error "Number must be greater than 0"
    else if searchPagesOffsetInvalid r then .error "Number must be greater than or equal to 0"
    else if jsTrim q = "" then .error "The 'query' parameter is required and cannot be empty."
    else .ok ⟨q, r.type, r.locale.getD "en", r.limit.getD 50, r.offset, r.search_operator⟩

/-- Model of the query-parameter construction of `search_pages`
(lines 93–100): `search` and `limit` are always set, then `type`,
`locale`, `offset`, `search_operator` only when defined (`locale` is
always defined after its default).  Numeric values are rendered to the
string the transport layer sends. -/
def buildSearchPagesQuery (a : SearchPagesArgs) : List (String × String) :=
  [("search", a.query), ("limit", toString a.limit)]
    ++ (match a.type with | some t => [("type", t)] | none => [])
    ++ [("locale", a.locale)]
    ++ (match a.offset with | some o => [("offset", toString o)] | none => [])
    ++ (match a.search_operator with | some op => [("search_operator", op.serialize)] | none => [])

/-- JSON-ish values carried by page-item fields, enough to state which
top-level fields survive projection. -/
inductive JVal where
  | s (v : String)
  | n (v : Int)
  | null
deriving DecidableEq, Repr

/-- The `meta` sub-object of a provider page item, as typed by the
tool's `WagtailPageItem` interface; `html_url` may be JSON null and
`locale` may be absent. -/
structure PageItemMeta where
  type : String
  detail_url : String
  html_url : Option String
  slug : String
  locale : Option String
deriving DecidableEq, Repr

/-- A provider page item: the fields the tool reads (`id`, `title`,
`meta`), plus any further top-level fields of the JSON object (the
interface's `[key: string]: any` index signature), and `meta` itself
possibly missing. -/
structure PageItem where
  id : Int
  title : String
  meta : Option PageItemMeta
  extra : List (String × JVal)
deriving DecidableEq, Repr

/-- The projected output item built by the map in `execute`
(lines 124–135): the seven-field object literal. -/
structure OutputPage where
  id : Int
  type : String
  locale : Option String
  title : String
  slug : String
  url : Option String
  detail_api_url : String
deriving DecidableEq, Repr

/-- Projection of one provider item.  When `meta` is absent the JS
expression `item.meta.type` throws a `TypeError`; `none` models that
throw. -/
def projectPageItem (item : PageItem) : Option OutputPage :=
  match item.meta with
  | none => none
  | some m => some ⟨item.id, m.type, m.locale, item.title, m.slug, m.html_url, m.detail_url⟩

/-- Left-to-right projection of the whole `items` array by
`results.items.map(...)`: any item whose projection throws aborts the
entire map. -/
def projectPageItems : List PageItem → Option (List OutputPage)
  | [] => some []
  | item :: rest =>
    match projectPageItem item, projectPageItems rest with
    | some o, some os => some (o :: os)
    | _, _ => none

/-- The `meta` object of a provider list response. -/
structure ListResponseMeta where
  total_count : Int
deriving DecidableEq, Repr

/-- A provider page-search response body; `none` components model the
structural check `!results || !results.meta || results.items ===
undefined`. -/
structure PagesApiResponse where
  meta : Option ListResponseMeta
  items : Option (List PageItem)
deriving DecidableEq, Repr

/-- The envelope emitted by `search_pages`: note the single `count`
field is populated from `results.meta.total_count` (line 147), and
there is no separate total field. -/
structure PagesEnvelope where
  count : Int
  items : List OutputPage
deriving DecidableEq, Repr

/-- Model of the response-processing phase of `search_pages`: the
structural check, the projection of every item, and the envelope
construction.  A `TypeError` escaping the map is caught by the catch
block's final arm and re-thrown as the unexpected-error wrap. -/
def searchPagesOnResponse (resp : Option PagesApiResponse) : Except ExecErr PagesEnvelope :=
  match resp with
  | none =>
    .error (.genericError "An unexpected error occurred: Received invalid data structure from Wagtail API.")
  | some r =>
    match r.meta, r.items with
    | some m, some items =>
      match projectPageItems items with
      | some outs => .ok ⟨m.total_count, outs⟩
      | none =>
        .error (.genericError "An unexpected error occurred: Cannot read properties of undefined (reading 'type')")
    | _, _ =>
      .error (.genericError "An unexpected error occurred: Received invalid data structure from Wagtail API.")

/-! Embedding of `src/tools/search-documents.tool.ts` and
`src/tools/get-document-details.tool.ts`. -/

/-- The `meta` sub-object of a provider document item; every field may
be missing in the raw JSON. -/
structure DocItemMeta where
  type : Option String
  detail_url : Option String
  download_url : Option String
deriving DecidableEq, Repr

/-- A provider document item as the filter sees it; fields may be
missing or of the wrong type, which the code checks with `typeof`. -/
structure DocItem where
  id : Option Int
  title : Option String
  meta : Option DocItemMeta
deriving DecidableEq, Repr

/-- The projected document record `{id, title, download_url}`. -/
structure DocOut where
  id : Int
  title : String
  download_url : String
deriving DecidableEq, Repr

/-- Model of the per-item check-and-extract of `search_documents`
(the `map` marking invalid items `null`): an item is kept only when it
is truthy with a numeric `id`, a string `title`, a truthy `meta`, and a
string `meta.download_url`.  The identical structural test guards the
single object of `get_document_details`. -/
def projectDocItem (item : Option DocItem) : Option DocOut :=
  match item with
  | none => none
  | some it =>
    match it.id, it.title, it.meta with
    | some i, some t, some m =>
      match m.download_url with
      | some d => some ⟨i, t, d⟩
      | none => none
    | _, _, _ => none

/-- A provider document-search response body (`none` components model
the structural check `!response.data || !response.data.meta ||
!Array.isArray(response.data.items)`); array entries may be null. -/
structure DocsApiResponse where
  meta : Option ListResponseMeta
  items : Option (List (Option DocItem))
deriving DecidableEq, Repr

/-- The envelope emitted by `search_documents`: `count` is the number
of kept items, `total_available` the provider's `meta.total_count`. -/
structure DocsEnvelope where
  count : Nat
  total_available : Int
  items : List DocOut
deriving DecidableEq, Repr

/-- Model of the response-processing phase of `search_documents`:
structural check, per-item filtering, envelope construction. -/
def searchDocumentsOnResponse (resp : Option DocsApiResponse) : Except ExecErr DocsEnvelope :=
  match resp with
  | none =>
    .error (.genericError "An unexpected error occurred: API request successful (Status 200) but response data missing or invalid.")
  | some r =>
    match r.meta, r.items with
    | some m, some items =>
      .ok ⟨(items.filterMap projectDocItem).length, m.total_count, items.filterMap projectDocItem⟩
    | _, _ =>
      .error (.genericError "An unexpected error occurred: API request successful (Status 200) but response data missing or invalid.")

/-- Model of the axios-error arm of the catch block of
`get-document-details.tool.ts`: `status === 404` first, then any other
truthy 4xx, then the server-or-network fallback. -/
def classifyGetDocumentDetailsAxios (idv : Int) (status : Option Nat)
    (axiosMessage : String) : ExecErr :=
  match status with
  | some st =>
    if st = 404 then .userError ("Document with ID " ++ toString idv ++ " not found.")
    else if 400 ≤ st ∧ st < 500 then
      .userError ("Client error calling Wagtail Document Detail API (Status: " ++ toString st ++ ").")
    else
      .genericError ("Server or network error calling Wagtail Document Detail API: "
        ++ axiosFailMessage status axiosMessage)
  | none =>
    .genericError ("Server or network error calling Wagtail Document Detail API: "
      ++ axiosFailMessage none axiosMessage)

/-- Outcome of the single `axios.get` of the document-detail tool. -/
inductive DocProviderOutcome where
  | success (body : Option DocItem)
  | failure (status : Option Nat) (message : String)

/-- Whole-invocation model of `get_document_details`: the zod schema
(`z.number().int().positive()`), the base-URL configuration check, one
provider call against `documents/{id}/`, the structural check of the
single object, and the catch-block classification of failures. -/
def getDocumentDetailsRun (env : WagtailEnv) (idv : Int)
    (provider : ResolvedRequest → DocProviderOutcome) : RunTrace DocOut :=
  if idv ≤ 0 then ⟨.error (.schemaError "Number must be greater than 0"), 0, 0⟩
  else
    match env.baseUrl with
    | none => ⟨.error (.genericError "Server configuration error: WAGTAIL_BASE_URL is not set."), 0, 0⟩
    | some b =>
      if b = "" then
        ⟨.error (.genericError "Server configuration error: WAGTAIL_BASE_URL is not set."), 0, 0⟩
      else
        match provider ⟨"/" ++ stripEdgeSlashes (effectiveApiPath env) ++ "/documents/"
            ++ toString idv ++ "/", []⟩ with
        | .success body =>
          match projectDocItem body with
          | some doc => ⟨.ok doc, 1, 0⟩
          | none =>
            ⟨.error (.genericError "An unexpected error occurred: API request successful (Status 200) but response data structure is invalid."), 1, 1⟩
        | .failure st msg => ⟨.error (classifyGetDocumentDetailsAxios idv st msg), 1, 1⟩

theorem mentions_append (a b c : String) : mentions (a ++ b ++ c) b := by
  refine ⟨a.data, c.data, ?_⟩
  simp [mentions, data_append]

theorem projectPageItems_none_of_missing (items : List PageItem)
    (h : ∃ x ∈ items, x.meta = none) : projectPageItems items = none := by
  induction items with
  | nil => simp at h
  | cons i t ih =>
    rcases h with ⟨x, hx, hm⟩
    rcases List.mem_cons.mp hx with rfl | hxt
    · simp [projectPageItems, projectPageItem, hm]
    · simp only [projectPageItems, ih ⟨x, hxt, hm⟩]
      cases projectPageItem i <;> rfl

theorem projectPageItems_length (items : List PageItem) (outs : List OutputPage)
    (h : projectPageItems items = some outs) : outs.length = items.length := by
  induction items generalizing outs with
  | nil => cases h; rfl
  | cons i t ih =>
    unfold projectPageItems at h
    cases hi : projectPageItem i with
    | none => rw [hi] at h; cases h
    | some o =>
      cases ht : projectPageItems t with
      | none => rw [hi, ht] at h; cases h
      | some os =>
        rw [hi, ht] at h
        cases h
        simp [ih os ht]

/-- C9 counterexample: omitting the search term (while supplying other
fields such as `locale` and `limit`) does not pass validation — the
`search_pages` schema declares `query` as a required string. -/
theorem searchPages_query_required_counterexample :
    validateSearchPagesParams ⟨none, none, some "en", some 10, none, none⟩ = .error "Required" ∧
    ∀ a : SearchPagesArgs,
      validateSearchPagesParams ⟨none, none, some "en", some 10, none, none⟩ ≠ .ok a :=
  ⟨rfl, fun _ h => by cases h⟩

/-- C9 amended: the page-search term is required and must be non-blank;
every validated input therefore carries the term, the outgoing query
always contains the `search` key, and truly optional absent fields
(`search_operator`, `offset`) contribute no key. -/
theorem validateSearchPagesParams_ok (r : SearchPagesRaw) (a : SearchPagesArgs)
    (h : validateSearchPagesParams r = .ok a) :
    r.query = some a.query ∧ jsTrim a.query ≠ "" ∧ a.type = r.type ∧
    a.offset = r.offset ∧ a.search_operator = r.search_operator := by
  unfold validateSearchPagesParams at h
  repeat' split at h
  all_goals cases h
  rename_i x q heq hlim hoff htrim
  exact ⟨heq, htrim, rfl, rfl, rfl⟩

theorem searchPages_query_required (r : SearchPagesRaw) (a : SearchPagesArgs)
    (h : validateSearchPagesParams r = .ok a) :
    r.query = some a.query ∧ jsTrim a.query ≠ "" ∧
    ("search", a.query) ∈ buildSearchPagesQuery a ∧
    (a.search_operator = none → ∀ v, ("search_operator", v) ∉ buildSearchPagesQuery a) ∧
    (a.offset = none → ∀ v, ("offset", v) ∉ buildSearchPagesQuery a) := by
  obtain ⟨hq, htrim, -, -, -⟩ := validateSearchPagesParams_ok r a h
  refine ⟨hq, htrim, by simp [buildSearchPagesQuery], ?_, ?_⟩
  · intro hso v hv
    cases hto : a.type <;> cases hoo : a.offset <;>
      simp [buildSearchPagesQuery, hso, hto, hoo] at hv
  · intro hoo v hv
    cases hto : a.type <;> cases hso : a.search_operator <;>
      simp [buildSearchPagesQuery, hso, hto, hoo] at hv

/-- Witness for C9's amended statement at a minimal valid input. -/
theorem searchPages_query_required_witness :
    validateSearchPagesParams ⟨some "hello", none, none, none, none, none⟩ =
      .ok ⟨"hello", none, "en", 50, none, none⟩ ∧
    (⟨some "hello", none, none, none, none, none⟩ : SearchPagesRaw).query =
      some (SearchPagesArgs.mk "hello" none "en" 50 none none).query ∧
    jsTrim (SearchPagesArgs.mk "hello" none "en" 50 none none).query ≠ "" ∧
    ("search", (SearchPagesArgs.mk "hello" none "en" 50 none none).query) ∈
      buildSearchPagesQuery ⟨"hello", none, "en", 50, none, none⟩ ∧
    ("search_operator", "and") ∉ buildSearchPagesQuery ⟨"hello", none, "en", 50, none, none⟩ ∧
    ("offset", "0") ∉ buildSearchPagesQuery ⟨"hello", none, "en", 50, none, none⟩ :=
  ⟨by rfl,
    (searchPages_query_required ⟨some "hello", none, none, none, none, none⟩
      ⟨"hello", none, "en", 50, none, none⟩ (by rfl)).1,
    (searchPages_query_required ⟨some "hello", none, none, none, none, none⟩
      ⟨"hello", none, "en", 50, none, none⟩ (by rfl)).2.1,
    (searchPages_query_required ⟨some "hello", none, none, none, none, none⟩
      ⟨"hello", none, "en", 50, none, none⟩ (by rfl)).2.2.1,
    (searchPages_query_required ⟨some "hello", none, none, none, none, none⟩
      ⟨"hello", none, "en", 50, none, none⟩ (by rfl)).2.2.2.1 rfl "and",
    (searchPages_query_required ⟨some "hello", none, none, none, none, none⟩
      ⟨"hello", none, "en", 50, none, none⟩ (by rfl)).2.2.2.2 rfl "0"⟩

/-- C10: when the structural check passes but some item of a page-search
response lacks its `meta` object, the whole operation fails with the
unexpected-error wrap — the faulty item is not dropped and no envelope
(in particular no truncated one) is produced. -/
theorem searchPages_missing_meta_fatal (m : ListResponseMeta) (items : List PageItem)
    (h : ∃ x ∈ items, x.meta = none) :
    searchPagesOnResponse (some ⟨some m, some items⟩) =
      .error (.genericError "An unexpected error occurred: Cannot read properties of undefined (reading 'type')") ∧
    ∀ envl : PagesEnvelope, searchPagesOnResponse (some ⟨some m, some items⟩) ≠ .ok envl := by
  have hp := projectPageItems_none_of_missing items h
  constructor
  · simp [searchPagesOnResponse, hp]
  · intro envl hcontra
    simp [searchPagesOnResponse, hp] at hcontra

/-- Witness for C10: a two-item response whose second item lacks
`meta` errors out as a whole (in particular no one-item envelope is
returned). -/
theorem searchPages_missing_meta_fatal_witness :
    searchPagesOnResponse (some ⟨some ⟨2⟩, some
        [PageItem.mk 1 "a" (some ⟨"blog.BlogPage", "d", none, "sl", none⟩) [],
         PageItem.mk 2 "b" none []]⟩) =
      .error (.genericError "An unexpected error occurred: Cannot read properties of undefined (reading 'type')") ∧
    searchPagesOnResponse (some ⟨some ⟨2⟩, some
        [PageItem.mk 1 "a" (some ⟨"blog.BlogPage", "d", none, "sl", none⟩) [],
         PageItem.mk 2 "b" none []]⟩) ≠
      .ok ⟨2, [⟨1, "blog.BlogPage", none, "a", "sl", none, "d"⟩]⟩ :=
  ⟨(searchPages_missing_meta_fatal ⟨2⟩
      [PageItem.mk 1 "a" (some ⟨"blog.BlogPage", "d", none, "sl", none⟩) [],
       PageItem.mk 2 "b" none []] (by decide)).1,
    (searchPages_missing_meta_fatal ⟨2⟩
      [PageItem.mk 1 "a" (some ⟨"blog.BlogPage", "d", none, "sl", none⟩) [],
       PageItem.mk 2 "b" none []] (by decide)).2
      ⟨2, [⟨1, "blog.BlogPage", none, "a", "sl", none, "d"⟩]⟩⟩

/-- Key/value view of the JSON object serialized for one projected
page item: the seven literal fields in source order, with an
`undefined` `locale` dropped by `JSON.stringify` and a `null`
`html_url` kept as JSON null. -/
def outputPageFields (o : OutputPage) : List (String × JVal) :=
  [("id", .n o.id), ("type", .s o.type)]
    ++ (match o.locale with | some l => [("locale", .s l)] | none => [])
    ++ [("title", .s o.title), ("slug", .s o.slug),
        ("url", match o.url with | some u => .s u | none => .null),
        ("detail_api_url", .s o.detail_api_url)]

/-- Key/value view of the top-level fields of a provider page item
other than the `meta` object: the typed `id` and `title` plus the
index-signature extras. -/
def pageItemNonMetaFields (item : PageItem) : List (String × JVal) :=
  [("id", .n item.id), ("title", .s item.title)] ++ item.extra

/-- C3 counterexample: a provider item with a top-level field `body`
projects to an output item that no longer carries `body` — the
projection does drop top-level fields other than the mapped ones. -/
theorem searchPages_projection_drops_extra_counterexample :
    projectPageItem ⟨1, "t", some ⟨"blog.BlogPage", "d", none, "sl", none⟩, [("body", .s "hello")]⟩ =
      some ⟨1, "blog.BlogPage", none, "t", "sl", none, "d"⟩ ∧
    ("body", JVal.s "hello") ∈ pageItemNonMetaFields
      ⟨1, "t", some ⟨"blog.BlogPage", "d", none, "sl", none⟩, [("body", .s "hello")]⟩ ∧
    ("body", JVal.s "hello") ∉ outputPageFields ⟨1, "blog.BlogPage", none, "t", "sl", none, "d"⟩ :=
  ⟨rfl, by decide, by decide⟩

/-- C3 amended: the projection emits a fixed-shape record — `id` and
`title` taken from the item, the five `meta` fields mapped to `type`,
`slug`, `url`, `detail_api_url`, `locale` — and every key of the output
lies in that fixed set, so all other top-level provider fields are
dropped. -/
theorem searchPages_projection_fixed_shape (item : PageItem) (m : PageItemMeta)
    (h : item.meta = some m) :
    projectPageItem item =
      some ⟨item.id, m.type, m.locale, item.title, m.slug, m.html_url, m.detail_url⟩ ∧
    ∀ k v, (k, v) ∈ outputPageFields
        ⟨item.id, m.type, m.locale, item.title, m.slug, m.html_url, m.detail_url⟩ →
      k ∈ ["id", "type", "locale", "title", "slug", "url", "detail_api_url"] := by
  constructor
  · simp [projectPageItem, h]
  · intro k v hk
    have hk2 : k = "id" ∨ k = "type" ∨ k = "locale" ∨ k = "title" ∨ k = "slug" ∨
        k = "url" ∨ k = "detail_api_url" := by
      cases hl : m.locale <;> simp [outputPageFields, hl] at hk <;> tauto
    simpa using hk2

/-- Witness for C3's amended statement at a concrete item carrying an
extra `body` field; its projection and one sample key membership. -/
theorem searchPages_projection_fixed_shape_witness :
    (PageItem.mk 1 "t" (some ⟨"blog.BlogPage", "d", none, "sl", some "en"⟩)
        [("body", .s "hello")]).meta = some ⟨"blog.BlogPage", "d", none, "sl", some "en"⟩ ∧
    projectPageItem ⟨1, "t", some ⟨"blog.BlogPage", "d", none, "sl", some "en"⟩,
        [("body", .s "hello")]⟩ =
      some ⟨1, "blog.BlogPage", some "en", "t", "sl", none, "d"⟩ ∧
    ("id", JVal.n 1) ∈ outputPageFields ⟨1, "blog.BlogPage", some "en", "t", "sl", none, "d"⟩ ∧
    ("id" : String) ∈ ["id", "type", "locale", "title", "slug", "url", "detail_api_url"] :=
  ⟨rfl,
    (searchPages_projection_fixed_shape
      ⟨1, "t", some ⟨"blog.BlogPage", "d", none, "sl", some "en"⟩, [("body", .s "hello")]⟩
      ⟨"blog.BlogPage", "d", none, "sl", some "en"⟩ rfl).1,
    by decide,
    (searchPages_projection_fixed_shape
      ⟨1, "t", some ⟨"blog.BlogPage", "d", none, "sl", some "en"⟩, [("body", .s "hello")]⟩
      ⟨"blog.BlogPage", "d", none, "sl", some "en"⟩ rfl).2 "id" (.n 1) (by decide)⟩

/-- C2 counterexample: a page-search response with `total_count = 10`
and a single item yields an envelope whose `count` field is `10`, not
the number of emitted items (`1`) — page search copies the provider
total into `count` and has no separate total field. -/
theorem listEnvelope_count_mismatch_counterexample :
    searchPagesOnResponse (some ⟨some ⟨10⟩, some
        [⟨1, "t", some ⟨"blog.BlogPage", "d", none, "one", none⟩, []⟩]⟩) =
      .ok ⟨10, [⟨1, "blog.BlogPage", none, "t", "one", none, "d"⟩]⟩ ∧
    (PagesEnvelope.mk 10 [⟨1, "blog.BlogPage", none, "t", "one", none, "d"⟩]).count ≠
      ((PagesEnvelope.mk 10 [⟨1, "blog.BlogPage", none, "t", "one", none, "d"⟩]).items.length : Int) :=
  ⟨rfl, by decide⟩

/-- C2 amended: for document search the envelope's `count` equals the
number of items actually emitted after dropping and `total_available`
equals the provider's `meta.total_count`; for page search no item is
ever dropped from a successful envelope (its length equals the
provider item count) and the single `count` field equals the provider's
`meta.total_count` (there is no separate total field). -/
theorem listEnvelope_counts :
    (∀ (m : ListResponseMeta) (items : List (Option DocItem)) (envl : DocsEnvelope),
      searchDocumentsOnResponse (some ⟨some m, some items⟩) = .ok envl →
      envl.count = envl.items.length ∧ envl.total_available = m.total_count) ∧
    (∀ (m : ListResponseMeta) (items : List PageItem) (envl : PagesEnvelope),
      searchPagesOnResponse (some ⟨some m, some items⟩) = .ok envl →
      envl.count = m.total_count ∧ envl.items.length = items.length) := by
  constructor
  · intro m items envl h
    unfold searchDocumentsOnResponse at h
    cases h
    exact ⟨rfl, rfl⟩
  · intro m items envl h
    have h2 : (match projectPageItems items with
        | some outs => (Except.ok ⟨m.total_count, outs⟩ : Except ExecErr PagesEnvelope)
        | none => .error (.genericError
            "An unexpected error occurred: Cannot read properties of undefined (reading 'type')")) =
        .ok envl := h
    cases hp : projectPageItems items with
    | none => rw [hp] at h2; cases h2
    | some outs =>
      rw [hp] at h2
      cases h2
      exact ⟨rfl, projectPageItems_length items outs hp⟩

/-- Witness for C2's amended statement: a document response of three
items with one missing `download_url` yields `count = 2` (emitted) and
`total_available = 3` (provider total); a page response of one item
with `total_count = 7` yields `count = 7` and one emitted item. -/
theorem listEnvelope_counts_witness :
    (searchDocumentsOnResponse (some ⟨some ⟨3⟩, some
        [some ⟨some 1, some "a", some ⟨none, none, some "http://h/a.pdf"⟩⟩,
         some ⟨some 2, some "b", some ⟨none, none, none⟩⟩,
         some ⟨some 3, some "c", some ⟨none, none, some "http://h/c.pdf"⟩⟩]⟩) =
      .ok ⟨2, 3, [⟨1, "a", "http://h/a.pdf"⟩, ⟨3, "c", "http://h/c.pdf"⟩]⟩ ∧
    ((DocsEnvelope.mk 2 3 [⟨1, "a", "http://h/a.pdf"⟩, ⟨3, "c", "http://h/c.pdf"⟩]).count =
        (DocsEnvelope.mk 2 3 [⟨1, "a", "http://h/a.pdf"⟩, ⟨3, "c", "http://h/c.pdf"⟩]).items.length ∧
      (DocsEnvelope.mk 2 3 [⟨1, "a", "http://h/a.pdf"⟩, ⟨3, "c", "http://h/c.pdf"⟩]).total_available =
        (ListResponseMeta.mk 3).total_count)) ∧
    (searchPagesOnResponse (some ⟨some ⟨7⟩, some
        [⟨1, "t", some ⟨"blog.BlogPage", "d", none, "one", none⟩, []⟩]⟩) =
      .ok ⟨7, [⟨1, "blog.BlogPage", none, "t", "one", none, "d"⟩]⟩ ∧
    ((PagesEnvelope.mk 7 [⟨1, "blog.BlogPage", none, "t", "one", none, "d"⟩]).count =
        (ListResponseMeta.mk 7).total_count ∧
      (PagesEnvelope.mk 7 [⟨1, "blog.BlogPage", none, "t", "one", none, "d"⟩]).items.length =
        ([(⟨1, "t", some ⟨"blog.BlogPage", "d", none, "one", none⟩, []⟩ : PageItem)]).length)) :=
  ⟨⟨by rfl,
      listEnvelope_counts.1 ⟨3⟩
        [some ⟨some 1, some "a", some ⟨none, none, some "http://h/a.pdf"⟩⟩,
         some ⟨some 2, some "b", some ⟨none, none, none⟩⟩,
         some ⟨some 3, some "c", some ⟨none, none, some "http://h/c.pdf"⟩⟩]
        ⟨2, 3, [⟨1, "a", "http://h/a.pdf"⟩, ⟨3, "c", "http://h/c.pdf"⟩]⟩ (by rfl)⟩,
    ⟨by rfl,
      listEnvelope_counts.2 ⟨7⟩
        [⟨1, "t", some ⟨"blog.BlogPage", "d", none, "one", none⟩, []⟩]
        ⟨7, [⟨1, "blog.BlogPage", none, "t", "one", none, "d"⟩]⟩ (by rfl)⟩⟩

/-- C6: on a document-detail invocation with a valid id and configured
base URL, a provider 404 surfaces as the `UserError` whose message
names the requested id; a 5xx response and a network failure surface
as the same `Server or network error` `Error` class; and any other
4xx surfaces as a caller-correctable `UserError` naming the upstream
status code. -/
theorem getDocumentDetails_error_classes (b : String) (apv kv : Option String)
    (idv : Int) (msg : String) (hb : b ≠ "") (hid : 0 < idv) :
    ((getDocumentDetailsRun ⟨some b, apv, kv⟩ idv
        (fun _ => .failure (some 404) msg)).result =
      .error (.userError ("Document with ID " ++ toString idv ++ " not found.")) ∧
      mentions ("Document with ID " ++ toString idv ++ " not found.") (toString idv)) ∧
    (∀ st, 500 ≤ st →
      (getDocumentDetailsRun ⟨some b, apv, kv⟩ idv
          (fun _ => .failure (some st) msg)).result =
        .error (.genericError ("Server or network error calling Wagtail Document Detail API: "
          ++ axiosFailMessage (some st) msg))) ∧
    (getDocumentDetailsRun ⟨some b, apv, kv⟩ idv (fun _ => .failure none msg)).result =
      .error (.genericError ("Server or network error calling Wagtail Document Detail API: "
        ++ axiosFailMessage none msg)) ∧
    (∀ st, 400 ≤ st → st < 500 → st ≠ 404 →
      (getDocumentDetailsRun ⟨some b, apv, kv⟩ idv
          (fun _ => .failure (some st) msg)).result =
        .error (.userError ("Client error calling Wagtail Document Detail API (Status: "
          ++ toString st ++ ").")) ∧
      mentions ("Client error calling Wagtail Document Detail API (Status: "
        ++ toString st ++ ").") (toString st)) := by
  have hnle : ¬ idv ≤ 0 := not_le.mpr hid
  refine ⟨⟨?_, mentions_append _ _ _⟩, fun st h5 => ?_, ?_,
    fun st h4 h5 hne => ⟨?_, mentions_append _ _ _⟩⟩
  · simp [getDocumentDetailsRun, if_neg hnle, hb, classifyGetDocumentDetailsAxios]
  · have hnottf : ¬ st = 404 := by omega
    have hnotrange : ¬ (400 ≤ st ∧ st < 500) := by omega
    simp [getDocumentDetailsRun, if_neg hnle, hb, classifyGetDocumentDetailsAxios,
      if_neg hnottf, if_neg hnotrange]
  · simp [getDocumentDetailsRun, if_neg hnle, hb, classifyGetDocumentDetailsAxios]
  · simp [getDocumentDetailsRun, if_neg hnle, hb, classifyGetDocumentDetailsAxios,
      if_neg hne, if_pos (⟨h4, h5⟩ : 400 ≤ st ∧ st < 500)]

/-- Witness for C6 at the spec's concrete scenario: id 999, with a
404, a 500, a network failure, and a 403. -/
theorem getDocumentDetails_error_classes_witness :
    ("http://h" ≠ "" ∧ (0 : Int) < 999 ∧ 500 ≤ 500 ∧ 400 ≤ 403 ∧ 403 < 500 ∧ 403 ≠ 404) ∧
    (getDocumentDetailsRun ⟨some "http://h", none, none⟩ 999
        (fun _ => .failure (some 404) "Request failed")).result =
      .error (.userError ("Document with ID " ++ toString (999 : Int) ++ " not found.")) ∧
    mentions ("Document with ID " ++ toString (999 : Int) ++ " not found.")
      (toString (999 : Int)) ∧
    (getDocumentDetailsRun ⟨some "http://h", none, none⟩ 999
        (fun _ => .failure (some 500) "Request failed")).result =
      .error (.genericError ("Server or network error calling Wagtail Document Detail API: "
        ++ axiosFailMessage (some 500) "Request failed")) ∧
    (getDocumentDetailsRun ⟨some "http://h", none, none⟩ 999
        (fun _ => .failure none "Request failed")).result =
      .error (.genericError ("Server or network error calling Wagtail Document Detail API: "
        ++ axiosFailMessage none "Request failed")) ∧
    (getDocumentDetailsRun ⟨some "http://h", none, none⟩ 999
        (fun _ => .failure (some 403) "Request failed")).result =
      .error (.userError ("Client error calling Wagtail Document Detail API (Status: "
        ++ toString (403 : Nat) ++ ").")) ∧
    mentions ("Client error calling Wagtail Document Detail API (Status: "
      ++ toString (403 : Nat) ++ ").") (toString (403 : Nat)) :=
  ⟨⟨by decide, by decide, by decide, by decide, by decide, by decide⟩,
    (getDocumentDetails_error_classes "http://h" none none 999 "Request failed"
      (by decide) (by decide)).1.1,
    (getDocumentDetails_error_classes "http://h" none none 999 "Request failed"
      (by decide) (by decide)).1.2,
    (getDocumentDetails_error_classes "http://h" none none 999 "Request failed"
      (by decide) (by decide)).2.1 500 (by decide),
    (getDocumentDetails_error_classes "http://h" none none 999 "Request failed"
      (by decide) (by decide)).2.2.1,
    ((getDocumentDetails_error_classes "http://h" none none 999 "Request failed"
      (by decide) (by decide)).2.2.2 403 (by decide) (by decide) (by decide)).1,
    ((getDocumentDetails_error_classes "http://h" none none 999 "Request failed"
      (by decide) (by decide)).2.2.2 403 (by decide) (by decide) (by decide)).2⟩

end Wagtail
